import Mathlib

/-!
Verification of the comparison core of `duff` (src/duffentry.c).

The embedding models one entry (`struct Entry`) as a record of the four
fields the algorithms read and write: `path`, `size`, `status` and
`checksum`.  The intrusive `next` pointer only serves the caller-owned
linked list (`free_entry_list`) and is not touched by any function the
claims are about, so it is omitted.  `copy_entry` in the C source performs
a deep copy (`strdup` of the path, `memcpy` of the checksum, `next = NULL`),
so entries share no mutable state and value semantics is a faithful model.

File I/O is modelled by a map from paths to a `FileData` describing how the
C stdio calls behave on that path: `noFile` (fopen fails), `readError pre`
(fopen succeeds, the stream delivers the bytes `pre` and then fails: fread
triggers `ferror`, while `fgetc` returns EOF exactly as at end of file, with
no way to tell the difference unless the caller checks `ferror`), or
`ok content` (the whole byte content is delivered).  Stateful C functions
become Lean functions returning the result code together with the updated
entries and the number of `fopen` calls performed.
-/

/-- The three values of the C `status` field (UNTOUCHED, CHECKSUMMED,
INVALID from duff.h, as used in duffentry.c). -/
inductive Status where
  | UNTOUCHED : Status
  | CHECKSUMMED : Status
  | INVALID : Status
deriving DecidableEq, Repr

/-- `SHA1_HASH_SIZE` from sha1.h: the digest is 20 bytes. -/
def SHA1_HASH_SIZE : Nat := 20

/-- `struct Entry` (duff.h), as read and written by duffentry.c: path,
size (`off_t`), status, and the 20-byte checksum array. -/
structure Entry where
  path : String
  size : Int
  status : Status
  checksum : List Nat
deriving DecidableEq, Repr

/-- Behaviour of the file behind a path, as observed through stdio. -/
inductive FileData where
  | noFile : FileData
  | readError (pre : List Nat) : FileData
  | ok (content : List Nat) : FileData
deriving DecidableEq, Repr

/-- The file system: what each path's stream delivers. -/
def FS : Type := String → FileData

/-- `make_entry` (duffentry.c:63-75): a fresh entry with the given path and
size, status UNTOUCHED, and the checksum array zeroed by `memset`. -/
def make_entry (path : String) (size : Int) : Entry :=
  { path := path
    size := size
    status := Status.UNTOUCHED
    checksum := List.replicate SHA1_HASH_SIZE 0 }

/-- `copy_entry` (duffentry.c:77-88): a deep copy — duplicated path string,
same size, same status, checksum copied byte for byte. -/
def copy_entry (entry : Entry) : Entry :=
  { path := entry.path
    size := entry.size
    status := entry.status
    checksum := entry.checksum }

/-- Modelled from the spec: the SHA-1 digest itself lives in sha1.c/sha1.h,
which are not part of this source tree; duffentry.c only streams 8 KiB
chunks through `SHA1Init`/`SHA1Update`/`SHA1Final`.  Feeding an incremental
accumulator the chunks of a stream in order digests exactly the whole byte
content, so the hash is modelled as an arbitrary function from the full
byte content to a digest, passed as the parameter `sha1` of every function
below ("a 160-bit cryptographic hash (SHA-1-class)" used only as a
discriminator). -/
def Sha1Fn : Type := List Nat → List Nat

/-- `get_entry_checksum` (duffentry.c:117-167).  Returns the C result code,
the updated entry, and the number of `fopen` calls.  INVALID fails at once
with no I/O; any non-UNTOUCHED (i.e. CHECKSUMMED) status succeeds at once
with no I/O; otherwise the file is opened: open failure or a read error
mid-stream sets status INVALID and returns -1 with the checksum array
untouched, while a clean end of stream stores the digest and sets status
CHECKSUMMED.  (The `warning` calls guarded by `quiet_flag` only write to
stderr and touch no entry state, so they are not modelled.) -/
def get_entry_checksum (sha1 : Sha1Fn) (fs : FS) (entry : Entry) :
    Int × Entry × Nat :=
  if entry.status = Status.INVALID then
    (-1, entry, 0)
  else if entry.status ≠ Status.UNTOUCHED then
    (0, entry, 0)
  else
    match fs entry.path with
    | FileData.noFile => (-1, { entry with status := Status.INVALID }, 1)
    | FileData.readError _ => (-1, { entry with status := Status.INVALID }, 1)
    | FileData.ok content =>
        (0, { entry with status := Status.CHECKSUMMED,
                         checksum := sha1 content }, 1)

/-- The byte loop of `compare_entry_checksums` (duffentry.c:203-205):
true iff some index `i < SHA1_HASH_SIZE` has `first->checksum[i] !=
second->checksum[i]`. -/
def checksums_differ (a b : List Nat) : Bool :=
  (List.range SHA1_HASH_SIZE).any (fun i => a.getD i 0 != b.getD i 0)

/-- `compare_entry_checksums` (duffentry.c:193-208): checksum the first
entry (failure returns -1 before the second is touched), then the second,
then compare the digest bytes.  Result code, both updated entries, fopen
count. -/
def compare_entry_checksums (sha1 : Sha1Fn) (fs : FS)
    (first second : Entry) : Int × Entry × Entry × Nat :=
  let g1 := get_entry_checksum sha1 fs first
  if g1.1 ≠ 0 then
    (-1, g1.2.1, second, g1.2.2)
  else
    let g2 := get_entry_checksum sha1 fs second
    if g2.1 ≠ 0 then
      (-1, g1.2.1, g2.2.1, g1.2.2 + g2.2.2)
    else if checksums_differ g1.2.1.checksum g2.2.1.checksum then
      (-1, g1.2.1, g2.2.1, g1.2.2 + g2.2.2)
    else
      (0, g1.2.1, g2.2.1, g1.2.2 + g2.2.2)

/-- The `fgetc` lockstep loop of `compare_entry_contents`
(duffentry.c:231-241) on the byte sequences the two streams deliver: stop
with -1 at the first position where the results differ (one byte against
another, or a byte against EOF), stop with 0 when both return EOF at the
same step. -/
def compare_streams : List Nat → List Nat → Int
  | [], [] => 0
  | _ :: _, [] => -1
  | [], _ :: _ => -1
  | x :: xs, y :: ys => if x ≠ y then -1 else compare_streams xs ys

/-- What `fgetc` delivers for a path before returning EOF: `none` when
`fopen` itself fails, otherwise the bytes the stream yields (the full
content, or the prefix read before an undetected I/O error — the loop
never calls `ferror`, so an error is seen as EOF). -/
def bytes_delivered : FileData → Option (List Nat)
  | FileData.noFile => none
  | FileData.readError pre => some pre
  | FileData.ok content => some content

/-- `compare_entry_contents` (duffentry.c:216-246): open both files (two
`fopen` calls are always made); if either open fails, return -1; otherwise
run the lockstep `fgetc` loop.  Entries are not mutated.  Result code and
fopen count. -/
def compare_entry_contents (fs : FS) (first second : Entry) : Int × Nat :=
  match bytes_delivered (fs first.path), bytes_delivered (fs second.path) with
  | some b1, some b2 => (compare_streams b1 b2, 2)
  | _, _ => (-1, 2)

/-- `compare_entries` (duffentry.c:174-189): size check, then checksums,
then — only when `thorough_flag` is set — byte-by-byte contents.  Result
code, both updated entries, total fopen count. -/
def compare_entries (sha1 : Sha1Fn) (fs : FS) (thorough_flag : Bool)
    (first second : Entry) : Int × Entry × Entry × Nat :=
  if first.size ≠ second.size then
    (-1, first, second, 0)
  else
    let c := compare_entry_checksums sha1 fs first second
    if c.1 ≠ 0 then
      (-1, c.2.1, c.2.2.1, c.2.2.2)
    else if thorough_flag then
      let t := compare_entry_contents fs c.2.1 c.2.2.1
      if t.1 ≠ 0 then
        (-1, c.2.1, c.2.2.1, c.2.2.2 + t.2)
      else
        (0, c.2.1, c.2.2.1, c.2.2.2 + t.2)
    else
      (0, c.2.1, c.2.2.1, c.2.2.2)

/-- One step of the status state machine: from UNTOUCHED anywhere, from
any other status only to itself. -/
def StatusStep (s t : Status) : Prop :=
  s = Status.UNTOUCHED ∨ t = s

/-! ## Helper lemmas -/

lemma get_entry_checksum_invalid (sha1 : Sha1Fn) (fs : FS) (e : Entry)
    (h : e.status = Status.INVALID) :
    get_entry_checksum sha1 fs e = (-1, e, 0) := by
  simp [get_entry_checksum, h]

lemma get_entry_checksum_checksummed (sha1 : Sha1Fn) (fs : FS) (e : Entry)
    (h : e.status = Status.CHECKSUMMED) :
    get_entry_checksum sha1 fs e = (0, e, 0) := by
  simp [get_entry_checksum, h]

lemma get_entry_checksum_noFile (sha1 : Sha1Fn) (fs : FS) (e : Entry)
    (h : e.status = Status.UNTOUCHED) (hf : fs e.path = FileData.noFile) :
    get_entry_checksum sha1 fs e =
      (-1, { e with status := Status.INVALID }, 1) := by
  simp [get_entry_checksum, h, hf]

lemma get_entry_checksum_readError (sha1 : Sha1Fn) (fs : FS) (e : Entry)
    (pre : List Nat) (h : e.status = Status.UNTOUCHED)
    (hf : fs e.path = FileData.readError pre) :
    get_entry_checksum sha1 fs e =
      (-1, { e with status := Status.INVALID }, 1) := by
  simp [get_entry_checksum, h, hf]

lemma get_entry_checksum_ok (sha1 : Sha1Fn) (fs : FS) (e : Entry)
    (content : List Nat) (h : e.status = Status.UNTOUCHED)
    (hf : fs e.path = FileData.ok content) :
    get_entry_checksum sha1 fs e =
      (0, { e with status := Status.CHECKSUMMED,
                   checksum := sha1 content }, 1) := by
  simp [get_entry_checksum, h, hf]

lemma get_entry_checksum_path (sha1 : Sha1Fn) (fs : FS) (e : Entry) :
    ((get_entry_checksum sha1 fs e).2.1).path = e.path := by
  unfold get_entry_checksum
  split
  · rfl
  · split
    · rfl
    · cases fs e.path <;> rfl

lemma get_entry_checksum_size (sha1 : Sha1Fn) (fs : FS) (e : Entry) :
    ((get_entry_checksum sha1 fs e).2.1).size = e.size := by
  unfold get_entry_checksum
  split
  · rfl
  · split
    · rfl
    · cases fs e.path <;> rfl

lemma get_entry_checksum_status_step (sha1 : Sha1Fn) (fs : FS) (e : Entry) :
    StatusStep e.status ((get_entry_checksum sha1 fs e).2.1).status := by
  unfold get_entry_checksum StatusStep
  split
  · exact Or.inr rfl
  · split
    · exact Or.inr rfl
    · rename_i h1 h2
      cases fs e.path <;> simp_all

lemma compare_streams_eq_zero_iff (u v : List Nat) :
    compare_streams u v = 0 ↔ u = v := by
  induction u generalizing v with
  | nil => cases v <;> simp [compare_streams]
  | cons x xs ih =>
    cases v with
    | nil => simp [compare_streams]
    | cons y ys =>
      by_cases h : x = y
      · subst h
        simp [compare_streams, ih]
      · simp [compare_streams, h]

lemma compare_streams_self (u : List Nat) : compare_streams u u = 0 :=
  (compare_streams_eq_zero_iff u u).mpr rfl

lemma compare_streams_comm (u v : List Nat) :
    compare_streams u v = compare_streams v u := by
  induction u generalizing v with
  | nil => cases v <;> simp [compare_streams]
  | cons x xs ih =>
    cases v with
    | nil => simp [compare_streams]
    | cons y ys =>
      by_cases h : x = y
      · subst h
        simp [compare_streams, ih]
      · simp [compare_streams, h, Ne.symm h]

lemma checksums_differ_self (a : List Nat) : checksums_differ a a = false := by
  simp [checksums_differ]

lemma bne_comm_nat (x y : Nat) : (x != y) = (y != x) := by
  by_cases h : x = y
  · rw [h]
  · rw [bne_iff_ne.mpr h, bne_iff_ne.mpr (Ne.symm h)]

lemma checksums_differ_comm (a b : List Nat) :
    checksums_differ a b = checksums_differ b a := by
  unfold checksums_differ
  congr 1
  funext i
  exact bne_comm_nat (a.getD i 0) (b.getD i 0)

lemma compare_entry_contents_comm (fs : FS) (x y : Entry) :
    (compare_entry_contents fs x y).1 = (compare_entry_contents fs y x).1 := by
  unfold compare_entry_contents
  cases h1 : bytes_delivered (fs x.path) <;>
    cases h2 : bytes_delivered (fs y.path) <;>
    simp [compare_streams_comm]

lemma compare_entries_fst (sha1 : Sha1Fn) (fs : FS) (th : Bool)
    (a b : Entry) :
    (compare_entries sha1 fs th a b).1 =
      if a.size ≠ b.size then -1
      else if (get_entry_checksum sha1 fs a).1 ≠ 0 then -1
      else if (get_entry_checksum sha1 fs b).1 ≠ 0 then -1
      else if checksums_differ ((get_entry_checksum sha1 fs a).2.1).checksum
          ((get_entry_checksum sha1 fs b).2.1).checksum then -1
      else if th then
        (if (compare_entry_contents fs (get_entry_checksum sha1 fs a).2.1
              (get_entry_checksum sha1 fs b).2.1).1 ≠ 0 then -1 else 0)
      else 0 := by
  unfold compare_entries compare_entry_checksums
  by_cases hs : a.size ≠ b.size
  · simp [hs]
  · by_cases h1 : (get_entry_checksum sha1 fs a).1 ≠ 0
    · simp [hs, h1]
    · by_cases h2 : (get_entry_checksum sha1 fs b).1 ≠ 0
      · simp [hs, h1, h2]
      · by_cases hd : checksums_differ
            ((get_entry_checksum sha1 fs a).2.1).checksum
            ((get_entry_checksum sha1 fs b).2.1).checksum
        · simp [hs, h1, h2, hd]
        · cases th
          · simp [hs, h1, h2, hd]
          · by_cases hc : (compare_entry_contents fs
                (get_entry_checksum sha1 fs a).2.1
                (get_entry_checksum sha1 fs b).2.1).1 ≠ 0
            · simp [hs, h1, h2, hd, hc]
            · simp [hs, h1, h2, hd, hc]

/-! ## Claims -/

/-- C1: if two entries have different `size` fields, `compare_entries`
returns -1 (NotEqual) at the size stage, performs zero `fopen` calls, and
returns both entries exactly as they were (no status or digest change). -/
theorem claim_C1 (sha1 : Sha1Fn) (fs : FS) (th : Bool) (a b : Entry)
    (h : a.size ≠ b.size) :
    compare_entries sha1 fs th a b = (-1, a, b, 0) := by
  simp [compare_entries, h]

theorem claim_C1_witness :
    compare_entries (fun _ => List.replicate SHA1_HASH_SIZE 0)
        (fun _ => FileData.noFile) false
        (make_entry "a" 1) (make_entry "b" 2) =
      (-1, make_entry "a" 1, make_entry "b" 2, 0) :=
  claim_C1 _ _ _ _ _ (by decide)

/-- C2: for equal-size entries, if the checksum computation fails for
either entry (its status is INVALID, or its file cannot be opened or read,
making it INVALID), `compare_entries` returns -1 (NotEqual) in either
thorough-flag setting: an unreadable or invalid entry is never reported
equal at the digest stage. -/
theorem claim_C2 (sha1 : Sha1Fn) (fs : FS) (th : Bool) (a b : Entry)
    (hs : a.size = b.size)
    (hf : (get_entry_checksum sha1 fs a).1 ≠ 0 ∨
      (get_entry_checksum sha1 fs b).1 ≠ 0) :
    (compare_entries sha1 fs th a b).1 = -1 := by
  rw [compare_entries_fst]
  by_cases h1 : (get_entry_checksum sha1 fs a).1 = 0
  · rcases hf with h | h
    · exact absurd h1 h
    · simp [hs, h1, h]
  · simp [hs, h1]

theorem claim_C2_witness :
    (compare_entries (fun _ => List.replicate SHA1_HASH_SIZE 0)
        (fun _ => FileData.noFile) true
        (make_entry "a" 1) (make_entry "b" 1)).1 = -1 :=
  claim_C2 _ _ _ _ _ (by decide) (Or.inl (by decide))

/-- C10: the verdict of `compare_entries` is symmetric in its two entries,
for either thorough-flag setting (the side effects on the entries may
happen in a different order, but the returned code is the same). -/
theorem claim_C10 (sha1 : Sha1Fn) (fs : FS) (th : Bool) (a b : Entry) :
    (compare_entries sha1 fs th a b).1 = (compare_entries sha1 fs th b a).1 := by
  rw [compare_entries_fst, compare_entries_fst]
  by_cases hs : a.size = b.size
  · by_cases h1 : (get_entry_checksum sha1 fs a).1 = 0
    · by_cases h2 : (get_entry_checksum sha1 fs b).1 = 0
      · rw [checksums_differ_comm ((get_entry_checksum sha1 fs b).2.1).checksum
          ((get_entry_checksum sha1 fs a).2.1).checksum]
        by_cases hd : checksums_differ
            ((get_entry_checksum sha1 fs a).2.1).checksum
            ((get_entry_checksum sha1 fs b).2.1).checksum
        · simp [hs, h1, h2, hd]
        · cases th
          · simp [hs, h1, h2, hd]
          · rw [compare_entry_contents_comm fs
              (get_entry_checksum sha1 fs a).2.1
              (get_entry_checksum sha1 fs b).2.1]
            simp [hs, h1, h2, hd]
      · simp [hs, h1, h2]
    · simp [hs, h1]
  · simp [hs, Ne.symm hs]

/-- C3: for two readable files of equal size whose digests collide but
whose byte contents differ, `compare_entries` on fresh entries returns -1
(NotEqual) with the thorough flag set — the lockstep byte comparison finds
the mismatch and overrides the digest match — and 0 (Equal) with the flag
clear, where the digest match is final. -/
theorem claim_C3 (sha1 : Sha1Fn) (fs : FS) (p1 p2 : String) (sz : Int)
    (c1 c2 : List Nat)
    (h1 : fs p1 = FileData.ok c1) (h2 : fs p2 = FileData.ok c2)
    (hcoll : sha1 c1 = sha1 c2) (hne : c1 ≠ c2) :
    (compare_entries sha1 fs true (make_entry p1 sz) (make_entry p2 sz)).1
        = -1 ∧
    (compare_entries sha1 fs false (make_entry p1 sz) (make_entry p2 sz)).1
        = 0 := by
  have ga : get_entry_checksum sha1 fs
      { path := p1, size := sz, status := Status.UNTOUCHED,
        checksum := List.replicate SHA1_HASH_SIZE 0 } =
      (0, { path := p1, size := sz, status := Status.CHECKSUMMED,
            checksum := sha1 c1 }, 1) :=
    get_entry_checksum_ok sha1 fs (make_entry p1 sz) c1 rfl h1
  have gb : get_entry_checksum sha1 fs
      { path := p2, size := sz, status := Status.UNTOUCHED,
        checksum := List.replicate SHA1_HASH_SIZE 0 } =
      (0, { path := p2, size := sz, status := Status.CHECKSUMMED,
            checksum := sha1 c2 }, 1) :=
    get_entry_checksum_ok sha1 fs (make_entry p2 sz) c2 rfl h2
  have hcs : compare_streams c1 c2 ≠ 0 := fun h =>
    hne ((compare_streams_eq_zero_iff c1 c2).mp h)
  constructor
  · rw [compare_entries_fst]
    simp [make_entry, ga, gb, hcoll, checksums_differ_self,
      compare_entry_contents, bytes_delivered, h1, h2, hcs]
  · rw [compare_entries_fst]
    simp [make_entry, ga, gb, hcoll, checksums_differ_self]

theorem claim_C3_witness :
    (compare_entries (fun _ => List.replicate SHA1_HASH_SIZE 0)
        (fun p => if p = "a" then FileData.ok [0] else FileData.ok [1]) true
        (make_entry "a" 1) (make_entry "b" 1)).1 = -1 ∧
    (compare_entries (fun _ => List.replicate SHA1_HASH_SIZE 0)
        (fun p => if p = "a" then FileData.ok [0] else FileData.ok [1]) false
        (make_entry "a" 1) (make_entry "b" 1)).1 = 0 :=
  claim_C3 _ _ "a" "b" 1 [0] [1] (by decide) (by decide) rfl (by decide)

/-- C4: `get_entry_checksum` is memoized and idempotent: on a CHECKSUMMED
entry it returns 0 at once, with zero `fopen` calls and the entry (hence
its digest) unchanged; whenever a call succeeds, an immediate second call
on the resulting entry returns 0 with zero `fopen` calls and the entry
unchanged; and a successful call on an UNTOUCHED entry opens the file
exactly once — so two successive calls digest identically and do file I/O
exactly once. -/
theorem claim_C4 (sha1 : Sha1Fn) (fs : FS) (e : Entry) :
    (e.status = Status.CHECKSUMMED → get_entry_checksum sha1 fs e = (0, e, 0)) ∧
    ((get_entry_checksum sha1 fs e).1 = 0 →
      get_entry_checksum sha1 fs (get_entry_checksum sha1 fs e).2.1 =
        (0, (get_entry_checksum sha1 fs e).2.1, 0)) ∧
    (e.status = Status.UNTOUCHED → (get_entry_checksum sha1 fs e).1 = 0 →
      (get_entry_checksum sha1 fs e).2.2 = 1) := by
  refine ⟨get_entry_checksum_checksummed sha1 fs e, ?_, ?_⟩
  · intro h0
    by_cases hi : e.status = Status.INVALID
    · rw [get_entry_checksum_invalid sha1 fs e hi] at h0
      simp at h0
    · by_cases hu : e.status = Status.UNTOUCHED
      · cases hf : fs e.path with
        | noFile =>
          rw [get_entry_checksum_noFile sha1 fs e hu hf] at h0
          simp at h0
        | readError pre =>
          rw [get_entry_checksum_readError sha1 fs e pre hu hf] at h0
          simp at h0
        | ok content =>
          rw [get_entry_checksum_ok sha1 fs e content hu hf]
          exact get_entry_checksum_checksummed sha1 fs _ rfl
      · have hc : e.status = Status.CHECKSUMMED := by
          cases hS : e.status
          · exact absurd hS hu
          · rfl
          · exact absurd hS hi
        rw [get_entry_checksum_checksummed sha1 fs e hc]
        exact get_entry_checksum_checksummed sha1 fs e hc
  · intro hu h0
    cases hf : fs e.path with
    | noFile =>
      rw [get_entry_checksum_noFile sha1 fs e hu hf] at h0
      simp at h0
    | readError pre =>
      rw [get_entry_checksum_readError sha1 fs e pre hu hf] at h0
      simp at h0
    | ok content =>
      rw [get_entry_checksum_ok sha1 fs e content hu hf]

theorem claim_C4_witness :
    (get_entry_checksum (fun _ => List.replicate SHA1_HASH_SIZE 0)
        (fun _ => FileData.ok [])
        ⟨"a", 0, Status.CHECKSUMMED, List.replicate SHA1_HASH_SIZE 0⟩ =
      (0, ⟨"a", 0, Status.CHECKSUMMED, List.replicate SHA1_HASH_SIZE 0⟩, 0)) ∧
    (get_entry_checksum (fun _ => List.replicate SHA1_HASH_SIZE 0)
        (fun _ => FileData.ok [])
        (get_entry_checksum (fun _ => List.replicate SHA1_HASH_SIZE 0)
          (fun _ => FileData.ok []) (make_entry "a" 0)).2.1 =
      (0, (get_entry_checksum (fun _ => List.replicate SHA1_HASH_SIZE 0)
          (fun _ => FileData.ok []) (make_entry "a" 0)).2.1, 0)) ∧
    ((get_entry_checksum (fun _ => List.replicate SHA1_HASH_SIZE 0)
        (fun _ => FileData.ok []) (make_entry "a" 0)).2.2 = 1) :=
  ⟨(claim_C4 _ _ _).1 rfl,
   (claim_C4 _ _ (make_entry "a" 0)).2.1 (by decide),
   (claim_C4 _ _ (make_entry "a" 0)).2.2 rfl (by decide)⟩

/-- C5: failure of `get_entry_checksum` is sticky and destroys no digest
state: on an INVALID entry it returns -1 immediately with zero `fopen`
calls and the entry unchanged; on an UNTOUCHED entry whose `fopen` fails,
or whose stream hits a read error mid-stream, it returns -1, sets status
INVALID and leaves the checksum array untouched (for a freshly constructed
entry that array is still all zeros, as `make_entry` zeroes it). -/
theorem claim_C5 (sha1 : Sha1Fn) (fs : FS) (e : Entry) (pre : List Nat)
    (p : String) (sz : Int) :
    (e.status = Status.INVALID → get_entry_checksum sha1 fs e = (-1, e, 0)) ∧
    (e.status = Status.UNTOUCHED → fs e.path = FileData.noFile →
      get_entry_checksum sha1 fs e =
        (-1, { e with status := Status.INVALID }, 1)) ∧
    (e.status = Status.UNTOUCHED → fs e.path = FileData.readError pre →
      get_entry_checksum sha1 fs e =
        (-1, { e with status := Status.INVALID }, 1)) ∧
    (make_entry p sz).checksum = List.replicate SHA1_HASH_SIZE 0 :=
  ⟨get_entry_checksum_invalid sha1 fs e,
   get_entry_checksum_noFile sha1 fs e,
   get_entry_checksum_readError sha1 fs e pre,
   rfl⟩

theorem claim_C5_witness :
    (get_entry_checksum (fun _ => List.replicate SHA1_HASH_SIZE 0)
        (fun _ => FileData.noFile)
        ⟨"a", 0, Status.INVALID, List.replicate SHA1_HASH_SIZE 0⟩ =
      (-1, ⟨"a", 0, Status.INVALID, List.replicate SHA1_HASH_SIZE 0⟩, 0)) ∧
    (get_entry_checksum (fun _ => List.replicate SHA1_HASH_SIZE 0)
        (fun _ => FileData.noFile) (make_entry "a" 0) =
      (-1, { make_entry "a" 0 with status := Status.INVALID }, 1)) ∧
    (get_entry_checksum (fun _ => List.replicate SHA1_HASH_SIZE 0)
        (fun _ => FileData.readError [3]) (make_entry "a" 0) =
      (-1, { make_entry "a" 0 with status := Status.INVALID }, 1)) :=
  ⟨(claim_C5 _ (fun _ => FileData.noFile)
      ⟨"a", 0, Status.INVALID, List.replicate SHA1_HASH_SIZE 0⟩ [] "a" 0).1 rfl,
   (claim_C5 _ (fun _ => FileData.noFile) (make_entry "a" 0) [] "a" 0).2.1
      rfl rfl,
   (claim_C5 _ (fun _ => FileData.readError [3]) (make_entry "a" 0) [3]
      "a" 0).2.2.1 rfl rfl⟩

lemma compare_entries_result_entries (sha1 : Sha1Fn) (fs : FS) (th : Bool)
    (a b : Entry) :
    ((compare_entries sha1 fs th a b).2.1 = a ∨
      (compare_entries sha1 fs th a b).2.1 =
        (get_entry_checksum sha1 fs a).2.1) ∧
    ((compare_entries sha1 fs th a b).2.2.1 = b ∨
      (compare_entries sha1 fs th a b).2.2.1 =
        (get_entry_checksum sha1 fs b).2.1) := by
  unfold compare_entries compare_entry_checksums
  by_cases hs : a.size ≠ b.size
  · simp [hs]
  · by_cases h1 : (get_entry_checksum sha1 fs a).1 ≠ 0
    · simp [hs, h1]
    · by_cases h2 : (get_entry_checksum sha1 fs b).1 ≠ 0
      · simp [hs, h1, h2]
      · by_cases hd : checksums_differ
            ((get_entry_checksum sha1 fs a).2.1).checksum
            ((get_entry_checksum sha1 fs b).2.1).checksum
        · simp [hs, h1, h2, hd]
        · cases th
          · simp [hs, h1, h2, hd]
          · by_cases hc : (compare_entry_contents fs
                (get_entry_checksum sha1 fs a).2.1
                (get_entry_checksum sha1 fs b).2.1).1 ≠ 0 <;>
              simp [hs, h1, h2, hd, hc]

lemma status_step_refl (s : Status) : StatusStep s s :=
  Or.inr rfl

/-- C6: the status field evolves monotonically under every operation:
`make_entry` yields UNTOUCHED, `copy_entry` preserves the status,
`get_entry_checksum` moves a status only along `StatusStep` (UNTOUCHED may
go anywhere; CHECKSUMMED and INVALID are terminal, never left and never
reset to UNTOUCHED), and `compare_entries` moves both its entries' statuses
only along `StatusStep` as well. -/
theorem claim_C6 (sha1 : Sha1Fn) (fs : FS) (th : Bool) (a b e : Entry)
    (p : String) (sz : Int) :
    (make_entry p sz).status = Status.UNTOUCHED ∧
    (copy_entry e).status = e.status ∧
    StatusStep e.status ((get_entry_checksum sha1 fs e).2.1).status ∧
    StatusStep a.status ((compare_entries sha1 fs th a b).2.1).status ∧
    StatusStep b.status ((compare_entries sha1 fs th a b).2.2.1).status := by
  refine ⟨rfl, rfl, get_entry_checksum_status_step sha1 fs e, ?_, ?_⟩
  · rcases (compare_entries_result_entries sha1 fs th a b).1 with h | h
    · rw [h]
      exact status_step_refl a.status
    · rw [h]
      exact get_entry_checksum_status_step sha1 fs a
  · rcases (compare_entries_result_entries sha1 fs th a b).2 with h | h
    · rw [h]
      exact status_step_refl b.status
    · rw [h]
      exact get_entry_checksum_status_step sha1 fs b

/-- C7 (evaluation of the code at the failing input): the byte-exact stage
does not detect read errors.  Two equal-size entries, both already
CHECKSUMMED with identical digests, whose files now both hit an I/O error
after delivering one identical byte, are reported equal: `fgetc` returns
EOF on the error, the loop never calls `ferror`, so `compare_entry_contents`
returns 0 and `compare_entries` in thorough mode returns 0 (Equal), even
though neither stream could be fully read. -/
theorem claim_C7_code_eval :
    (compare_entry_contents (fun _ => FileData.readError [7])
        ⟨"a", 10, Status.CHECKSUMMED, List.replicate SHA1_HASH_SIZE 0⟩
        ⟨"b", 10, Status.CHECKSUMMED, List.replicate SHA1_HASH_SIZE 0⟩).1
      = 0 ∧
    (compare_entries (fun _ => List.replicate SHA1_HASH_SIZE 0)
        (fun _ => FileData.readError [7]) true
        ⟨"a", 10, Status.CHECKSUMMED, List.replicate SHA1_HASH_SIZE 0⟩
        ⟨"b", 10, Status.CHECKSUMMED, List.replicate SHA1_HASH_SIZE 0⟩).1
      = 0 := by
  constructor <;> decide

/-- C8 (counterexample to the claim as stated): `Compare(entry,
Clone(entry))` is not Equal for every entry.  An entry whose status is
INVALID compares NotEqual to its own clone (the checksum stage fails), and
so does an UNTOUCHED entry whose file cannot be opened. -/
theorem claim_C8_counterexample :
    ¬ ((compare_entries (fun _ => List.replicate SHA1_HASH_SIZE 0)
          (fun _ => FileData.ok []) false
          ⟨"a", 0, Status.INVALID, List.replicate SHA1_HASH_SIZE 0⟩
          (copy_entry
            ⟨"a", 0, Status.INVALID, List.replicate SHA1_HASH_SIZE 0⟩)).1
        = 0) ∧
    ¬ ((compare_entries (fun _ => List.replicate SHA1_HASH_SIZE 0)
          (fun _ => FileData.noFile) false
          (make_entry "a" 1) (copy_entry (make_entry "a" 1))).1 = 0) := by
  constructor <;> decide

/-- C8 (amended): for every entry whose status is not INVALID and whose
file is readable (open succeeds and the full content is delivered),
`compare_entries` on the entry and its clone returns 0 (Equal), for either
setting of the thorough flag. -/
theorem claim_C8 (sha1 : Sha1Fn) (fs : FS) (th : Bool) (e : Entry)
    (c : List Nat) (hst : e.status ≠ Status.INVALID)
    (hc : fs e.path = FileData.ok c) :
    (compare_entries sha1 fs th e (copy_entry e)).1 = 0 := by
  rw [compare_entries_fst]
  by_cases hu : e.status = Status.UNTOUCHED
  · have ga := get_entry_checksum_ok sha1 fs e c hu hc
    have gb := get_entry_checksum_ok sha1 fs (copy_entry e) c hu hc
    cases th <;>
      simp [copy_entry, ga, gb, checksums_differ_self,
        compare_entry_contents, bytes_delivered, hc, compare_streams_self]
  · have hcs : e.status = Status.CHECKSUMMED := by
      cases hS : e.status
      · exact absurd hS hu
      · rfl
      · exact absurd hS hst
    have ga := get_entry_checksum_checksummed sha1 fs e hcs
    have gb := get_entry_checksum_checksummed sha1 fs (copy_entry e) hcs
    cases th <;>
      simp [copy_entry, ga, gb, checksums_differ_self,
        compare_entry_contents, bytes_delivered, hc, compare_streams_self]

theorem claim_C8_witness :
    (compare_entries (fun _ => List.replicate SHA1_HASH_SIZE 0)
        (fun _ => FileData.ok [5]) true
        (make_entry "a" 1) (copy_entry (make_entry "a" 1))).1 = 0 :=
  claim_C8 _ _ true (make_entry "a" 1) [5] (by decide) rfl

/-- Running `get_entry_checksum` on the first component of a pair of
entries, leaving the second untouched: a two-entry heap on which the frame
property of `copy_entry` can be stated. -/
def compute_on_fst (sha1 : Sha1Fn) (fs : FS) (p : Entry × Entry) :
    Int × Entry × Entry :=
  let g := get_entry_checksum sha1 fs p.1
  (g.1, g.2.1, p.2)

/-- Running `get_entry_checksum` on the second component of a pair of
entries, leaving the first untouched. -/
def compute_on_snd (sha1 : Sha1Fn) (fs : FS) (p : Entry × Entry) :
    Int × Entry × Entry :=
  let g := get_entry_checksum sha1 fs p.2
  (g.1, p.1, g.2.1)

/-- C9: `copy_entry` yields an entry with identical path, size, status and
checksum, and (being a deep copy: duplicated path string, copied checksum
bytes, no shared pointers) the clone is independent of the original:
computing the digest of the clone leaves every field of the original
exactly as it was, and computing the digest of the original leaves the
clone exactly as it was. -/
theorem claim_C9 (sha1 : Sha1Fn) (fs : FS) (e : Entry) :
    (copy_entry e).path = e.path ∧
    (copy_entry e).size = e.size ∧
    (copy_entry e).status = e.status ∧
    (copy_entry e).checksum = e.checksum ∧
    (compute_on_snd sha1 fs (e, copy_entry e)).2.1 = e ∧
    (compute_on_fst sha1 fs (e, copy_entry e)).2.2 = copy_entry e :=
  ⟨rfl, rfl, rfl, rfl, rfl, rfl⟩
